import Mathlib

/-!
Shallow embedding of the reconciliation engine of `main.py`
(TubeArchivist → Emby metadata sync, v5.0).

Conventions of the embedding:
* Python dicts holding JSON data become Lean structures with `Option` fields
  (`none` models an absent key); association lists model dicts with dynamic
  string keys, with Python's `d[k] = v` assignment modelled by `dictInsert`
  (overwrite in place, append when fresh).
* HTTP transports are passed in as functions returning `Except Unit _`;
  `.error ()` models a request that raised after the adapter's retry policy.
* Python truthiness on JSON values is modelled by `truthy`.
* String scanning is done over `List Char` so that every definition reduces
  in the kernel; `String.toList`/`String.mk` convert at the boundaries.
-/

set_option maxRecDepth 8000

/-- JSON values as they appear in the metadata payload built by
`_update_emby_item_metadata` in `main.py:660-670`.  The payload only ever
holds strings, integers, `None`, arrays of strings (`Tags`), arrays of
one-field `{'Name': x}` objects (`Studios`, encoded by `nameObjArr` as the
list of the `Name` values), and string-valued objects (`ProviderIds`). -/
inductive JVal where
  | s (v : String)
  | n (v : Int)
  | null
  | strArr (v : List String)
  | nameObjArr (v : List String)
  | strObj (v : List (String × String))
  deriving DecidableEq

/-- Python truthiness of a `JVal` (used by the
`{k: v for k, v in metadata.items() if v}` comprehension at `main.py:673`). -/
def truthy : JVal → Bool
  | .s v => !(v == "")
  | .n v => !(v == 0)
  | .null => false
  | .strArr v => !v.isEmpty
  | .nameObjArr v => !v.isEmpty
  | .strObj v => !v.isEmpty

/-- Lookup in a string-keyed association list (first binding wins, which
matches Python dict reads given the `dictInsert` write discipline below). -/
def lookupStr (d : List (String × String)) (k : String) : Option String :=
  (d.find? (·.1 == k)).map (·.2)

/-- Python dict assignment `d[k] = v`: overwrite the existing binding in
place when the key is present, append a fresh binding otherwise. -/
def dictInsert {α : Type} (d : List (String × α)) (k : String) (v : α) :
    List (String × α) :=
  if d.any (·.1 == k) then
    d.map (fun kv => if kv.1 == k then (k, v) else kv)
  else
    d ++ [(k, v)]

/-- The `channel` sub-object of a TubeArchivist video record
(`ta_video.get('channel', {}).get('channel_name', '')` in `main.py:663`). -/
structure Channel where
  channel_name : Option String
  deriving DecidableEq

/-- A TubeArchivist video record as read by `main.py` (plus the raw fields
`category`, `duration`, `view_count`, `like_count`, `active` that the
TubeArchivist API serves but the code never reads). `none` models an absent
key; `channel := none` also models a present-but-empty (falsy) channel dict. -/
structure Video where
  youtube_id : Option String
  title : Option String
  description : Option String
  channel : Option Channel
  tags : List String
  published : Option String
  category : Option String
  duration : Option Nat
  view_count : Option Nat
  like_count : Option Nat
  active : Option Bool
  deriving DecidableEq

/-- An Emby library item as read by `main.py`: `Id`, `Name`, `Path` and the
`ProviderIds` dict. -/
structure EmbyItem where
  id : Option String
  name : Option String
  path : Option String
  providerIds : List (String × String)
  deriving DecidableEq

/-- One character of the class `[a-zA-Z0-9_-]` used by the YouTube-ID regexes
in `_extract_youtube_id` (`main.py:629` and `main.py:640`). -/
def isIdChar (c : Char) : Bool :=
  ('a' ≤ c && c ≤ 'z') || ('A' ≤ c && c ≤ 'Z') || c.isDigit || c == '_' || c == '-'

/-- Full match of `^[a-zA-Z0-9_-]{11}$` (`re.match` at `main.py:629`). -/
def matchesIdPattern (s : String) : Bool :=
  s.length == 11 && s.toList.all isIdChar

/-- Worker for `findMatches11` with an explicit structural fuel.  The fuel is
initialised to the length of the character list, which bounds the number of
scan steps, so the `fuel = 0` branch with a nonempty list is unreachable. -/
def findMatches11Go : Nat → List Char → List String
  | _, [] => []
  | 0, _ => []
  | fuel + 1, c :: rest =>
    if ((c :: rest).take 11).length == 11 && ((c :: rest).take 11).all isIdChar then
      String.mk ((c :: rest).take 11) :: findMatches11Go fuel ((c :: rest).drop 11)
    else
      findMatches11Go fuel rest

/-- The semantics of `re.findall(r'[a-zA-Z0-9_-]{11}', filename)` at
`main.py:640`: left-to-right scan collecting non-overlapping 11-character
runs of the identifier alphabet. -/
def findMatches11 (cs : List Char) : List String :=
  findMatches11Go cs.length cs

/-- Python `s.startswith('-')` on the 11-character matches. -/
def startsWithDash (s : String) : Bool :=
  s.toList.head? == some '-'

/-- Python `s.endswith('-')` on the 11-character matches. -/
def endsWithDash (s : String) : Bool :=
  s.toList.getLast? == some '-'

/-- Split a character list on `/`, keeping empty segments (the analogue of
`"a/b".split('/')` used to model `pathlib` component splitting). -/
def splitSlash : List Char → List (List Char)
  | [] => [[]]
  | c :: rest =>
    if c == '/' then
      [] :: splitSlash rest
    else
      match splitSlash rest with
      | [] => [[c]]
      | h :: t => (c :: h) :: t

/-- Index of the last `'.'` in a character list, mirroring `name.rfind('.')`. -/
def rfindDot (cs : List Char) : Option Nat :=
  ((List.range cs.length).filter (fun i => cs.getD i ' ' == '.')).getLast?

/-- `Path(path).stem` (`main.py:637`): the final `pathlib` component (split on
`/`, empty and `.` segments dropped) with its suffix removed; pathlib strips
`name[i:]` only when `0 < i < len(name) - 1` where `i = name.rfind('.')`. -/
def pathStemChars (p : List Char) : List Char :=
  let name := ((((splitSlash p).filter (fun s => !s.isEmpty && !(s == ['.']))).getLast?).getD [])
  match rfindDot name with
  | some i => if 0 < i ∧ i < name.length - 1 then name.take i else name
  | none => name

/-- `TubeArchivistEmbyIntegration._extract_youtube_id` (`main.py:613-651`):
provider tag first (verbatim, no validation), then the display name when it
is exactly 11 identifier characters, then the first 11-character run in the
filename stem that does not start or end with a hyphen. -/
def extract_youtube_id (item : EmbyItem) : Option String :=
  match lookupStr item.providerIds "YouTube" with
  | some v => some v
  | none =>
    let item_name := item.name.getD ""
    if item_name ≠ "" ∧ item_name.length = 11 ∧ matchesIdPattern item_name then
      some item_name
    else
      let path := item.path.getD ""
      if path ≠ "" then
        match (findMatches11 (pathStemChars path.toList)).find?
            (fun m => !(startsWithDash m) && !(endsWithDash m)) with
        | some m => some m
        | none => none
      else
        none

/-- First run of four consecutive digits in a character list: the semantics
of `re.search(r'(\d{4})', date_string)` at `main.py:695`. -/
def find4DigitRun : List Char → Option (List Char)
  | [] => none
  | c :: rest =>
    if ((c :: rest).take 4).length == 4 && ((c :: rest).take 4).all Char.isDigit then
      some ((c :: rest).take 4)
    else
      find4DigitRun rest

/-- Decimal value of a digit run (`int(year_match.group(1))`). -/
def digitsToNat (ds : List Char) : Nat :=
  ds.foldl (fun acc c => acc * 10 + (c.toNat - '0'.toNat)) 0

/-- `TubeArchivistEmbyIntegration._extract_year` (`main.py:681-701`), in its
regex fallback branch (the `HAS_DATEUTIL = False` path): `None` for an absent
or empty date string, otherwise the first 4-digit run, `None` when there is
none. -/
def extract_year (date_string : Option String) : Option Nat :=
  match date_string with
  | none => none
  | some s =>
    if s = "" then none
    else
      match find4DigitRun s.toList with
      | some ds => some (digitsToNat ds)
      | none => none

/-- The `metadata` dict literal built at `main.py:660-670`, before the
empty-field filter: `Name`, `Overview`, `Studios`, `Tags`, `PremiereDate`,
`ProductionYear`, `ProviderIds` in source order. -/
def buildMetadata (v : Video) : List (String × JVal) :=
  [("Name", JVal.s (v.title.getD "")),
   ("Overview", JVal.s (v.description.getD "")),
   ("Studios",
     match v.channel with
     | some ch => JVal.nameObjArr [ch.channel_name.getD ""]
     | none => JVal.nameObjArr []),
   ("Tags", JVal.strArr v.tags),
   ("PremiereDate",
     match v.published with
     | some s => JVal.s s
     | none => JVal.null),
   ("ProductionYear",
     match extract_year v.published with
     | some y => JVal.n (y : Int)
     | none => JVal.null),
   ("ProviderIds", JVal.strObj [("YouTube", v.youtube_id.getD "")])]

/-- The patch actually sent for one matched pair: the `metadata` dict after
the `{k: v for k, v in metadata.items() if v}` filter at `main.py:673`.
This is the `computePatch` of the specification. -/
def computePatch (v : Video) : List (String × JVal) :=
  (buildMetadata v).filter (fun kv => truthy kv.2)

/-- Pagination metadata block of the TubeArchivist `/api/video/` response
(`data['paginate']`), each field optional (`paginate_info.get(...)` defaults
at `main.py:329-331`). -/
structure Paginate where
  total_hits : Option Nat
  last_page : Option Nat
  current_page : Option Nat
  deriving DecidableEq

/-- One page of the TubeArchivist `/api/video/` response: the `data` item
list and the optional `paginate` block. -/
structure PageResponse where
  data : List Video
  paginate : Option Paginate
  deriving DecidableEq

/-- `TubeArchivistClient.get_videos` (`main.py:289-305`): on a transport
error (request exception or non-2xx after retries) the method logs and
returns `{}`, which downstream reads as no `data` and no `paginate` key. -/
def get_videos (api : Nat → Nat → Except Unit PageResponse) (page limit : Nat) :
    PageResponse :=
  match api page limit with
  | .ok resp => resp
  | .error _ => { data := [], paginate := none }

/-- The `while True` pagination loop of `TubeArchivistClient.get_all_videos`
(`main.py:307-348`), also counting page fetches.  The loop advances `page`
by one and breaks when `page > 100` (the safety break at `main.py:343`); the
structural `fuel` argument encodes that bound, with `fuel = 100 - page`
maintained from the initial call (`page = 1`, `fuel = 99`), so the `fuel = 0`
branch returns exactly when the source hits its safety break. -/
def get_all_videos_loop (api : Nat → Nat → Except Unit PageResponse)
    (page : Nat) (acc : List Video) (fetches : Nat) (fuel : Nat) :
    List Video × Nat :=
  let resp := get_videos api page 100
  if resp.data.isEmpty then
    (acc, fetches + 1)
  else
    let acc' := acc ++ resp.data
    let last_page := (resp.paginate.bind Paginate.last_page).getD 1
    let current_page := (resp.paginate.bind Paginate.current_page).getD page
    if last_page ≤ current_page then
      (acc', fetches + 1)
    else
      match fuel with
      | 0 => (acc', fetches + 1)
      | fuel' + 1 => get_all_videos_loop api (page + 1) acc' (fetches + 1) fuel'

/-- `TubeArchivistClient.get_all_videos` (`main.py:307-348`): drain the
paginated listing starting at page 1. -/
def get_all_videos (api : Nat → Nat → Except Unit PageResponse) : List Video :=
  (get_all_videos_loop api 1 [] 0 99).1

/-- Number of `get_videos` calls performed while draining, for the
fetch-count properties. -/
def get_all_videos_fetches (api : Nat → Nat → Except Unit PageResponse) : Nat :=
  (get_all_videos_loop api 1 [] 0 99).2

/-- The environment of one `sync_metadata` pass: the two liveness probes,
the TubeArchivist video-listing transport, the Emby library listing, and the
Emby item-update transport (item id and payload to HTTP status, `.error ()`
for a raised request exception). -/
structure SyncEnv where
  ta_ping : Bool
  emby_ping : Bool
  video_api : Nat → Nat → Except Unit PageResponse
  emby_items : List EmbyItem
  transport : String → List (String × JVal) → Except Unit Nat

/-- `EmbyClient.update_item_metadata` (`main.py:473-485`): `True` iff the
POST returns 200 or 204; any raised exception is caught and yields `False`. -/
def update_item_metadata (transport : String → List (String × JVal) → Except Unit Nat)
    (item_id : String) (metadata : List (String × JVal)) : Bool :=
  match transport item_id metadata with
  | .ok code => code == 200 || code == 204
  | .error _ => false

/-- `TubeArchivistEmbyIntegration._update_emby_item_metadata`
(`main.py:653-679`): returns the success flag and the write(s) issued (the
list is empty when the item has no truthy `Id` and no write happens). -/
def update_emby_item_metadata (env : SyncEnv) (item : EmbyItem) (v : Video) :
    Bool × List (String × List (String × JVal)) :=
  match item.id with
  | none => (false, [])
  | some item_id =>
    if item_id = "" then
      (false, [])
    else
      let metadata := computePatch v
      (update_item_metadata env.transport item_id metadata, [(item_id, metadata)])

/-- The index-building loop of `sync_metadata` (`main.py:564-580`): for each
Emby item with a truthy extracted YouTube ID, `emby_by_youtube_id[id] = item`. -/
def buildIndex (items : List EmbyItem) : List (String × EmbyItem) :=
  items.foldl
    (fun d item =>
      match extract_youtube_id item with
      | some yid => if yid = "" then d else dictInsert d yid item
      | none => d)
    []

/-- The per-video apply loop of `sync_metadata` (`main.py:592-605`): skip
records without a truthy `youtube_id`, skip records with no index match,
otherwise update and count successes.  Returns the updated count and the
write log in call order. -/
def applyLoop (env : SyncEnv) (index : List (String × EmbyItem))
    (videos : List Video) : Nat × List (String × List (String × JVal)) :=
  videos.foldl
    (fun acc v =>
      match v.youtube_id with
      | none => acc
      | some yid =>
        if yid = "" then acc
        else
          match (index.find? (·.1 == yid)).map (·.2) with
          | none => acc
          | some item =>
            let r := update_emby_item_metadata env item v
            (acc.1 + (if r.1 then 1 else 0), acc.2 ++ r.2))
    (0, [])

/-- `TubeArchivistEmbyIntegration.test_connections` (`main.py:519-536`). -/
def test_connections (env : SyncEnv) : Bool :=
  env.ta_ping && env.emby_ping

/-- Observable outcome of one `sync_metadata` pass: the returned boolean,
the `updated_count` it logs, and the destination writes issued. -/
structure SyncResult where
  success : Bool
  updated_count : Nat
  writes : List (String × List (String × JVal))
  deriving DecidableEq

/-- `TubeArchivistEmbyIntegration.sync_metadata` (`main.py:538-611`):
connectivity gate, source enumeration (empty ⇒ `False`), destination listing
(empty ⇒ `False`), index build, apply loop, `True` on completion. -/
def sync_metadata (env : SyncEnv) : SyncResult :=
  if !test_connections env then
    { success := false, updated_count := 0, writes := [] }
  else
    let ta_videos := get_all_videos env.video_api
    if ta_videos.isEmpty then
      { success := false, updated_count := 0, writes := [] }
    else if env.emby_items.isEmpty then
      { success := false, updated_count := 0, writes := [] }
    else
      let index := buildIndex env.emby_items
      let r := applyLoop env index ta_videos
      { success := true, updated_count := r.1, writes := r.2 }

/-- Ceiling division, for the `ceil(N/pageSize)` fetch-count properties. -/
def ceilDiv (a b : Nat) : Nat :=
  (a + b - 1) / b

/-- A distinct mock video per index, for the finite mock catalogs of the
pagination properties. -/
def mkVideo (i : Nat) : Video :=
  { youtube_id := some (toString i), title := some "t", description := none,
    channel := none, tags := [], published := none, category := none,
    duration := none, view_count := none, like_count := none, active := none }

/-- A mock catalog of `n` distinct videos. -/
def mkVideos (n : Nat) : List Video :=
  (List.range n).map mkVideo

/-- The reported `last_page` of a mock catalog served in pages of 100
(at least 1, as TubeArchivist reports even for an empty catalog). -/
def mockLast (items : List Video) : Nat :=
  max 1 ((items.length + 99) / 100)

/-- A well-behaved mock TubeArchivist listing endpoint: serves `items` in
pages of 100 with a consistent `paginate` block. -/
def mockApi (items : List Video) : Nat → Nat → Except Unit PageResponse :=
  fun page _limit =>
    .ok { data := (items.drop ((page - 1) * 100)).take 100,
          paginate := some { total_hits := some items.length,
                             last_page := some (mockLast items),
                             current_page := some page } }

/-- The same mock listing endpoint without any total-page metadata
(no `paginate` block in the response). -/
def mockApiNoMeta (items : List Video) : Nat → Nat → Except Unit PageResponse :=
  fun page _limit =>
    .ok { data := (items.drop ((page - 1) * 100)).take 100, paginate := none }

/-- Drain invariant on the well-behaved mock catalog: starting at a page
that still holds data (and with the fuel consistent with the source's
`page > 100` safety break), the loop returns everything from that page on
and performs one fetch per remaining page. -/
theorem get_all_videos_loop_mockApi (items : List Video) (hlen : items.length ≤ 10000) :
    ∀ (n p fuel : Nat) (acc : List Video) (f : Nat),
      mockLast items - p = n → 1 ≤ p → p + fuel = 100 →
      (p - 1) * 100 < items.length →
      get_all_videos_loop (mockApi items) p acc f fuel
        = (acc ++ items.drop ((p - 1) * 100), f + (mockLast items - p + 1)) := by
  intro n
  induction n with
  | zero =>
    intro p fuel acc f h0 hp hfuel hlt
    have hle : mockLast items ≤ p := Nat.sub_eq_zero_iff_le.mp h0
    have hdiv : (items.length + 99) / 100 ≤ p :=
      le_trans (le_max_right 1 _) hle
    have htake : (items.drop ((p - 1) * 100)).take 100 = items.drop ((p - 1) * 100) := by
      apply List.take_of_length_le
      rw [List.length_drop]
      omega
    unfold get_all_videos_loop
    simp only [get_videos, mockApi, Option.bind, Option.getD_some]
    rw [if_neg (by simp [htake, List.isEmpty_eq_true]; omega)]
    rw [if_pos hle, htake]
    simp [h0]
  | succ n ih =>
    intro p fuel acc f h0 hp hfuel hlt
    have hlt' : p < mockLast items := by omega
    have hceil : p + 1 ≤ (items.length + 99) / 100 := by
      rcases max_choice 1 ((items.length + 99) / 100) with hm | hm <;>
        rw [mockLast, hm] at hlt' <;> omega
    have hlt2 : p * 100 < items.length := by omega
    have hml : mockLast items ≤ 100 := by
      rw [mockLast]
      rcases max_choice 1 ((items.length + 99) / 100) with hm | hm <;> rw [hm] <;> omega
    obtain ⟨fuel', rfl⟩ : ∃ fuel'', fuel = fuel'' + 1 := ⟨fuel - 1, by omega⟩
    unfold get_all_videos_loop
    simp only [get_videos, mockApi, Option.bind, Option.getD_some]
    rw [if_neg (by simp [List.isEmpty_eq_true, List.take_eq_nil_iff, List.drop_eq_nil_iff]; omega)]
    rw [if_neg (by omega)]
    rw [ih (p + 1) fuel' (acc ++ (items.drop ((p - 1) * 100)).take 100) (f + 1)
        (by omega) (by omega) (by omega) (by simpa using hlt2)]
    have harith : (p + 1 - 1) * 100 = (p - 1) * 100 + 100 := by omega
    rw [harith, List.append_assoc, List.drop_take_append_drop]
    have hcount : f + 1 + (mockLast items - (p + 1) + 1) = f + (mockLast items - p + 1) := by
      omega
    rw [hcount]

/-- C2 counterexample: for `N = 0` (with metadata) the drain costs one fetch,
not `ceil(0/100) = 0`; and without total-page metadata a 250-item catalog is
truncated to the first page of 100 rather than fully drained. -/
theorem pagination_fetch_count_cex :
    get_all_videos_fetches (mockApi []) = 1 ∧ ceilDiv 0 100 = 0 ∧
    (get_all_videos (mockApiNoMeta (mkVideos 250))).length = 100 ∧
    (mkVideos 250).length = 250 := by decide

/-- C2 (amended): with consistent total-page metadata the drain retrieves
all `N` items (each exactly once, in order) in exactly `max 1 (ceil(N/100))`
fetches — the code always requests pages of size 100; without total-page
metadata the drain stops after a single fetch and returns only the first
`min N 100` items. -/
theorem pagination_drain (items : List Video) (hlen : items.length ≤ 10000) :
    (get_all_videos (mockApi items) = items ∧
     get_all_videos_fetches (mockApi items) = max 1 (ceilDiv items.length 100)) ∧
    get_all_videos (mockApiNoMeta items) = items.take 100 ∧
    get_all_videos_fetches (mockApiNoMeta items) = 1 := by
  have hmeta : get_all_videos_loop (mockApi items) 1 [] 0 99
      = (items, max 1 (ceilDiv items.length 100)) := by
    rcases Nat.eq_zero_or_pos items.length with hz | hpos
    · rw [List.length_eq_zero.mp hz]
      decide
    · rw [get_all_videos_loop_mockApi items hlen (mockLast items - 1) 1 99 [] 0 rfl
        (by omega) (by omega) (by simpa using hpos)]
      have h1 : 1 ≤ mockLast items := le_max_left 1 _
      have hcd : max 1 (ceilDiv items.length 100) = mockLast items := rfl
      simp [hcd]
      omega
  have hnometa : get_all_videos_loop (mockApiNoMeta items) 1 [] 0 99
      = (items.take 100, 1) := by
    rcases Nat.eq_zero_or_pos items.length with hz | hpos
    · rw [List.length_eq_zero.mp hz]
      decide
    · unfold get_all_videos_loop
      simp only [get_videos, mockApiNoMeta, Option.bind, Option.getD_some]
      rw [if_neg (by
        simp [List.isEmpty_eq_true, List.take_eq_nil_iff, List.drop_eq_nil_iff,
          ← List.length_eq_zero]
        omega)]
      simp
  refine ⟨⟨?_, ?_⟩, ?_, ?_⟩
  · show (get_all_videos_loop (mockApi items) 1 [] 0 99).1 = items
    rw [hmeta]
  · show (get_all_videos_loop (mockApi items) 1 [] 0 99).2 = _
    rw [hmeta]
  · show (get_all_videos_loop (mockApiNoMeta items) 1 [] 0 99).1 = items.take 100
    rw [hnometa]
  · show (get_all_videos_loop (mockApiNoMeta items) 1 [] 0 99).2 = 1
    rw [hnometa]

/-- Witness for `pagination_drain` on a 250-item mock catalog (3 pages). -/
theorem pagination_drain_witness :
    (mkVideos 250).length ≤ 10000 ∧
    ((get_all_videos (mockApi (mkVideos 250)) = mkVideos 250 ∧
      get_all_videos_fetches (mockApi (mkVideos 250)) = max 1 (ceilDiv (mkVideos 250).length 100)) ∧
     get_all_videos (mockApiNoMeta (mkVideos 250)) = (mkVideos 250).take 100 ∧
     get_all_videos_fetches (mockApiNoMeta (mkVideos 250)) = 1) :=
  ⟨by decide, pagination_drain (mkVideos 250) (by decide)⟩

/-- Inserted bindings are found, and shadow any earlier binding of the same
key: the association-list reading of Python's `d[k] = v` followed by `d[k]`. -/
theorem find?_dictInsert {α : Type} (d : List (String × α)) (k : String) (v : α) :
    (dictInsert d k v).find? (·.1 == k) = some (k, v) := by
  unfold dictInsert
  by_cases h : d.any (·.1 == k)
  · rw [if_pos h]
    induction d with
    | nil => simp at h
    | cons kv t ih =>
      by_cases hk : (kv.1 == k) = true
      · rw [List.map_cons, if_pos hk]
        exact List.find?_cons_of_pos _ (by simp)
      · have hk' : (kv.1 == k) = false := by
          exact Bool.not_eq_true _ ▸ hk
        have ht : t.any (·.1 == k) = true := by
          rw [List.any_cons, hk'] at h
          simpa using h
        rw [List.map_cons, if_neg (by simp [hk'])]
        rw [List.find?_cons_of_neg _ (by simp [hk'])]
        exact ih ht
  · rw [if_neg h]
    have hnone : d.find? (·.1 == k) = none := by
      apply List.find?_eq_none.mpr
      intro x hx hpx
      exact h (List.any_eq_true.mpr ⟨x, hx, hpx⟩)
    rw [List.find?_append, hnone]
    simp [List.find?_cons]

/-- C3 (amended): a provider-tag value under the `YouTube` key is returned
verbatim by `_extract_youtube_id`, with no format validation and no
fallthrough to the display-name or filename candidates. -/
theorem provider_tag_used_verbatim (item : EmbyItem) (v : String)
    (h : lookupStr item.providerIds "YouTube" = some v) :
    extract_youtube_id item = some v := by
  unfold extract_youtube_id
  rw [h]

/-- Witness for `provider_tag_used_verbatim` at a concrete item. -/
theorem provider_tag_used_verbatim_witness :
    extract_youtube_id ⟨some "e", some "nm", none, [("YouTube", "bad")]⟩ = some "bad" :=
  provider_tag_used_verbatim ⟨some "e", some "nm", none, [("YouTube", "bad")]⟩ "bad" (by decide)

/-- C3 counterexample: a provider-tag value that does not satisfy the
MatchKey format is used verbatim rather than rejected, even though a valid
lower-priority candidate (the display name) is available. -/
theorem provider_tag_not_validated_cex :
    extract_youtube_id ⟨some "e", some "abcdefghijk", none, [("YouTube", "bad")]⟩ = some "bad" ∧
    matchesIdPattern "bad" = false ∧
    matchesIdPattern "abcdefghijk" = true := by decide

/-- C4 counterexample: a provider-tag key starting with `-` is returned
as-is, so resolve can return a key starting with a hyphen. -/
theorem resolve_returns_leading_hyphen_cex :
    extract_youtube_id ⟨some "e", some "x", none, [("YouTube", "-abcdefghij")]⟩
      = some "-abcdefghij" ∧
    startsWithDash "-abcdefghij" = true := by decide

/-- C4 (amended): only keys obtained from the filename scan are guaranteed
hyphen-free at the edges; when the provider tag is absent and the display
name does not qualify, an extracted key never starts or ends with `-`. -/
theorem filename_scan_key_no_hyphen (item : EmbyItem) (k : String)
    (h1 : lookupStr item.providerIds "YouTube" = none)
    (h2 : ¬(item.name.getD "" ≠ "" ∧ (item.name.getD "").length = 11 ∧
            matchesIdPattern (item.name.getD "") = true))
    (h3 : extract_youtube_id item = some k) :
    startsWithDash k = false ∧ endsWithDash k = false := by
  simp only [extract_youtube_id, h1] at h3
  rw [if_neg h2] at h3
  by_cases hp : item.path.getD "" = ""
  · rw [if_neg (by simpa using hp)] at h3
    exact absurd h3 (by simp)
  · rw [if_pos hp] at h3
    cases hf : (findMatches11 (pathStemChars (item.path.getD "").toList)).find?
        (fun m => !(startsWithDash m) && !(endsWithDash m)) with
    | none => rw [hf] at h3; exact absurd h3 (by simp)
    | some m =>
      rw [hf] at h3
      have hm : m = k := by injection h3
      have hpred := List.find?_some hf
      rw [hm] at hpred
      simp only [Bool.and_eq_true, Bool.not_eq_true'] at hpred
      exact hpred

/-- Witness for `filename_scan_key_no_hyphen` at a concrete item whose key
comes from the filename. -/
theorem filename_scan_key_no_hyphen_witness :
    startsWithDash "abcdefghijk" = false ∧ endsWithDash "abcdefghijk" = false :=
  filename_scan_key_no_hyphen ⟨some "e", some "nm", some "/yt/abcdefghijk.mp4", []⟩
    "abcdefghijk" (by decide) (by decide) (by decide)

/-- C5 counterexample: two items resolving to the same key — the index maps
the key to the second (last-seen) item, not the first-seen one. -/
theorem index_keeps_last_cex :
    (buildIndex [⟨some "A", some "abcdefghijk", none, []⟩,
                 ⟨some "B", some "abcdefghijk", none, []⟩]).find? (·.1 == "abcdefghijk")
      = some ("abcdefghijk", ⟨some "B", some "abcdefghijk", none, []⟩) ∧
    (⟨some "A", some "abcdefghijk", none, []⟩ : EmbyItem)
      ≠ ⟨some "B", some "abcdefghijk", none, []⟩ := by decide

/-- C5 (amended): on a key collision the index keeps the last-seen item
(silently overwriting the first-seen one); building never fails. -/
theorem buildIndex_last_seen_wins (items : List EmbyItem) (it : EmbyItem) (k : String)
    (h : extract_youtube_id it = some k) (hk : k ≠ "") :
    ((buildIndex (items ++ [it])).find? (·.1 == k)).map (·.2) = some it := by
  unfold buildIndex
  rw [List.foldl_append]
  simp only [List.foldl_cons, List.foldl_nil, h]
  rw [if_neg hk, find?_dictInsert]
  rfl

/-- Witness for `buildIndex_last_seen_wins` at a concrete collision-free
insertion. -/
theorem buildIndex_last_seen_wins_witness :
    (((buildIndex ([⟨some "A", some "abcdefghijk", none, []⟩] ++
        [⟨some "B", some "abcdefghijk", none, []⟩])).find?
          (·.1 == "abcdefghijk")).map (·.2))
      = some ⟨some "B", some "abcdefghijk", none, []⟩ :=
  buildIndex_last_seen_wins [⟨some "A", some "abcdefghijk", none, []⟩]
    ⟨some "B", some "abcdefghijk", none, []⟩ "abcdefghijk" (by decide) (by decide)

/-- C6: every field kept in the computed patch has a truthy value, hence is
never the empty string, an empty collection, or null. -/
theorem computePatch_no_empty_fields (v : Video) (kv : String × JVal)
    (h : kv ∈ computePatch v) :
    truthy kv.2 = true ∧ kv.2 ≠ JVal.s "" ∧ kv.2 ≠ JVal.strArr [] ∧
      kv.2 ≠ JVal.nameObjArr [] ∧ kv.2 ≠ JVal.strObj [] ∧ kv.2 ≠ JVal.null := by
  have ht : truthy kv.2 = true := (List.mem_filter.mp h).2
  refine ⟨ht, ?_, ?_, ?_, ?_, ?_⟩ <;> intro he <;> rw [he] at ht <;> simp [truthy] at ht

/-- Witness for `computePatch_no_empty_fields` at a concrete patch field. -/
theorem computePatch_no_empty_fields_witness :
    truthy (("Name", JVal.s "T") : String × JVal).2 = true ∧
      (("Name", JVal.s "T") : String × JVal).2 ≠ JVal.s "" ∧
      (("Name", JVal.s "T") : String × JVal).2 ≠ JVal.strArr [] ∧
      (("Name", JVal.s "T") : String × JVal).2 ≠ JVal.nameObjArr [] ∧
      (("Name", JVal.s "T") : String × JVal).2 ≠ JVal.strObj [] ∧
      (("Name", JVal.s "T") : String × JVal).2 ≠ JVal.null :=
  computePatch_no_empty_fields
    { youtube_id := some "abcdefghijk", title := some "T", description := none,
      channel := none, tags := [], published := none, category := none,
      duration := none, view_count := none, like_count := none, active := none }
    ("Name", JVal.s "T") (by decide)

/-- C9 (amended): the computed patch never contains a `CommunityRating`
field — the rating derivation is not implemented. -/
theorem computePatch_no_communityRating (v : Video) :
    (computePatch v).find? (·.1 == "CommunityRating") = none := by
  apply List.find?_eq_none.mpr
  intro kv hkv
  have hmem : kv ∈ buildMetadata v := (List.mem_filter.mp hkv).1
  simp only [buildMetadata, List.mem_cons, List.not_mem_nil, or_false] at hmem
  rcases hmem with rfl | rfl | rfl | rfl | rfl | rfl | rfl <;> simp

/-- C9 counterexample: a record with positive like and view counts, yet the
patch carries no `CommunityRating` field. -/
theorem communityRating_absent_cex :
    (some 50 : Option Nat) = some 50 ∧ (some 100 : Option Nat) = some 100 ∧
    (computePatch
      { youtube_id := some "abcdefghijk", title := some "T", description := none,
        channel := none, tags := [], published := none, category := none,
        duration := none, view_count := some 100, like_count := some 50,
        active := none }).find? (·.1 == "CommunityRating") = none := by decide

/-- Modelled from the spec: zero-padded 3-digit group used by the
thousands-separated views tag of §4.4 (not present in `main.py`). -/
def pad3 (m : Nat) : String :=
  String.mk (List.replicate (3 - (toString m).length) '0') ++ toString m

/-- Modelled from the spec: worker for `specThousands` with structural fuel
(the fuel is initialised to `n`, which bounds the number of divisions). -/
def specThousandsGo : Nat → Nat → String
  | 0, n => toString n
  | fuel + 1, n =>
    if n < 1000 then toString n
    else specThousandsGo fuel (n / 1000) ++ "," ++ pad3 (n % 1000)

/-- Modelled from the spec: thousands-separated rendering of the view count
in the synthesized "Views: N" tag of §4.4 (not present in `main.py`). -/
def specThousands (n : Nat) : String :=
  specThousandsGo n n

/-- Modelled from the spec: the synthesized human-readable duration tag
("Hh Mm" or "Mm") of §4.4 (not present in `main.py`). -/
def specDurationTag (s : Nat) : String :=
  if s / 3600 > 0 then
    toString (s / 3600) ++ "h " ++ toString (s % 3600 / 60) ++ "m"
  else
    toString (s % 3600 / 60) ++ "m"

/-- Modelled from the spec: the `Tags` union of §4.4 — deduplicated union of
the raw record tags, a "Category: X" tag when a category is present, the
duration tag, a "Views: N" tag when a view count is present, and a
"Status: Active/Inactive" tag.  None of this synthesis exists in `main.py`. -/
def specTags (v : Video) : List String :=
  (v.tags ++
    (match v.category with | some c => ["Category: " ++ c] | none => []) ++
    (match v.duration with | some d => [specDurationTag d] | none => []) ++
    (match v.view_count with | some n => ["Views: " ++ specThousands n] | none => []) ++
    ["Status: " ++ (if v.active.getD false then "Active" else "Inactive")]).dedup

/-- A record exercising every synthesized-tag input of the spec's §4.4. -/
def vTagRich : Video :=
  { youtube_id := some "abcdefghijk", title := some "T", description := none,
    channel := none, tags := [], published := none, category := some "Music",
    duration := some 3661, view_count := some 1234567, like_count := none,
    active := some true }

/-- C7 counterexample: a record with an empty raw tag list but a category,
duration, view count and status — the spec's union is nonempty, yet the
computed patch has no `Tags` field at all. -/
theorem tags_not_synthesized_cex :
    (computePatch vTagRich).find? (·.1 == "Tags") = none ∧
    specTags vTagRich =
      ["Category: Music", "1h 1m", "Views: 1,234,567", "Status: Active"] ∧
    specTags vTagRich ≠ [] := by decide

/-- Keys absent from a list stay absent from any filtering of it. -/
theorem find?_filter_keys_ne (l : List (String × JVal)) (q : String × JVal → Bool)
    (key : String) (h : ∀ kv ∈ l, kv.1 ≠ key) :
    (l.filter q).find? (·.1 == key) = none := by
  apply List.find?_eq_none.mpr
  intro kv hkv
  have := h kv (List.mem_filter.mp hkv).1
  simp [this]

/-- C7 (amended): the `Tags` field of the computed patch is exactly the
record's raw tag list, with no synthesized Category/duration/Views/Status
tags and no deduplication; it is omitted exactly when the raw list is
empty. -/
theorem tags_field_is_raw_tags (v : Video) :
    (computePatch v).find? (·.1 == "Tags") =
      if v.tags.isEmpty then none else some ("Tags", JVal.strArr v.tags) := by
  unfold computePatch
  rw [show buildMetadata v =
      [("Name", JVal.s (v.title.getD "")),
       ("Overview", JVal.s (v.description.getD "")),
       ("Studios", match v.channel with
          | some ch => JVal.nameObjArr [ch.channel_name.getD ""]
          | none => JVal.nameObjArr [])] ++
      ("Tags", JVal.strArr v.tags) ::
      [("PremiereDate", match v.published with
          | some s => JVal.s s
          | none => JVal.null),
       ("ProductionYear", match extract_year v.published with
          | some y => JVal.n (y : Int)
          | none => JVal.null),
       ("ProviderIds", JVal.strObj [("YouTube", v.youtube_id.getD "")])] from rfl]
  rw [List.filter_append, List.find?_append]
  rw [find?_filter_keys_ne _ _ _ (by
    intro kv hkv
    simp only [List.mem_cons, List.not_mem_nil, or_false] at hkv
    rcases hkv with rfl | rfl | rfl <;> simp)]
  rw [List.filter_cons]
  by_cases ht : v.tags.isEmpty
  · rw [if_neg (by simp [truthy, ht])]
    rw [if_pos ht]
    rw [Option.none_or]
    exact find?_filter_keys_ne _ _ _ (by
      intro kv hkv
      simp only [List.mem_cons, List.not_mem_nil, or_false] at hkv
      rcases hkv with rfl | rfl | rfl <;> simp)
  · rw [if_pos (by simp [truthy, ht])]
    rw [if_neg ht]
    rw [Option.none_or]
    exact List.find?_cons_of_pos _ (by simp)

/-- A concrete TubeArchivist record whose YouTube ID matches `eA`. -/
def vA : Video :=
  { youtube_id := some "aaaaaaaaaaa", title := some "A", description := none,
    channel := none, tags := [], published := none, category := none,
    duration := none, view_count := none, like_count := none, active := none }

/-- A concrete TubeArchivist record whose YouTube ID matches `eB`. -/
def vB : Video :=
  { youtube_id := some "bbbbbbbbbbb", title := some "B", description := none,
    channel := none, tags := [], published := none, category := none,
    duration := none, view_count := none, like_count := none, active := none }

/-- A concrete Emby item carrying `vA`'s YouTube ID as a provider tag. -/
def eA : EmbyItem := ⟨some "e1", some "x1", none, [("YouTube", "aaaaaaaaaaa")]⟩

/-- A concrete Emby item carrying `vB`'s YouTube ID as a provider tag. -/
def eB : EmbyItem := ⟨some "e2", some "x2", none, [("YouTube", "bbbbbbbbbbb")]⟩

deriving instance DecidableEq for Except

/-- A pass environment whose source catalog reports two pages but whose
second page request fails (after the transport's retries). -/
def envC1 : SyncEnv :=
  { ta_ping := true, emby_ping := true,
    video_api := fun page _ =>
      if page = 1 then
        .ok { data := [vA],
              paginate := some { total_hits := some 150, last_page := some 2,
                                 current_page := some 1 } }
      else
        .error (),
    emby_items := [eA],
    transport := fun _ _ => .ok 200 }

/-- C1 counterexample: with page 2 failing, the pass still completes
successfully and issues a destination write from the partial (one-page)
enumeration. -/
theorem partial_enumeration_writes_cex :
    envC1.video_api 2 100 = .error () ∧
    sync_metadata envC1 =
      { success := true, updated_count := 1,
        writes := [("e1", computePatch vA)] } ∧
    (sync_metadata envC1).writes ≠ [] := by decide

/-- C1 (amended): a failed page fetch makes `get_videos` return an empty
response, so the pagination loop stops at that page and returns the records
gathered so far as if enumeration had completed — a partial catalog, not an
abort. -/
theorem page_failure_stops_enumeration (api : Nat → Nat → Except Unit PageResponse)
    (page : Nat) (acc : List Video) (fetches fuel : Nat)
    (h : api page 100 = .error ()) :
    get_all_videos_loop api page acc fetches fuel = (acc, fetches + 1) := by
  unfold get_all_videos_loop get_videos
  rw [h]
  rfl

/-- Witness for `page_failure_stops_enumeration` on a first-page failure. -/
theorem page_failure_stops_enumeration_witness :
    get_all_videos_loop (fun _ _ => .error ()) 1 [vA] 0 99 = ([vA], 1) :=
  page_failure_stops_enumeration (fun _ _ => .error ()) 1 [vA] 0 99 rfl

/-- A pass environment with two source records matching two destination
items, parameterised by the destination-write transport. -/
def envC8 (tr : String → List (String × JVal) → Except Unit Nat) : SyncEnv :=
  { ta_ping := true, emby_ping := true,
    video_api := fun page _ =>
      .ok { data := if page = 1 then [vA, vB] else [],
            paginate := some { total_hits := some 2, last_page := some 1,
                               current_page := some page } },
    emby_items := [eA, eB],
    transport := tr }

/-- C8 counterexample: the first of two matched writes raises; the pass
completes and its full summary is `success`, `updated_count = 1` and the two
attempted writes — it contains no failed count at all. -/
theorem write_failure_summary_cex :
    sync_metadata (envC8 (fun i _ => if i == "e1" then .error () else .ok 200)) =
      { success := true, updated_count := 1,
        writes := [("e1", computePatch vA), ("e2", computePatch vB)] } := by decide

/-- C8 (amended): a destination write failure for one matched item — however
the transport fails for it — is absorbed by `update_item_metadata` returning
`False`; the remaining matched item is still processed and written, the pass
completes successfully, and the summary counts only `updated_count = 1`
(no failed counter exists). -/
theorem write_failure_isolated (tr : String → List (String × JVal) → Except Unit Nat)
    (hu1 : update_item_metadata tr "e1" (computePatch vA) = false)
    (hu2 : update_item_metadata tr "e2" (computePatch vB) = true) :
    sync_metadata (envC8 tr) =
      { success := true, updated_count := 1,
        writes := [("e1", computePatch vA), ("e2", computePatch vB)] } := by
  have hsync : sync_metadata (envC8 tr) =
      { success := true,
        updated_count :=
          (0 + if update_item_metadata tr "e1" (computePatch vA) then 1 else 0) +
            (if update_item_metadata tr "e2" (computePatch vB) then 1 else 0),
        writes := ([] ++ [("e1", computePatch vA)]) ++ [("e2", computePatch vB)] } := rfl
  rw [hsync, hu1, hu2]
  simp

/-- Witness for `write_failure_isolated` with a concrete HTTP-level failure
(a 500 status) on the first item. -/
theorem write_failure_isolated_witness :
    sync_metadata (envC8 (fun i _ => if i == "e1" then .ok 500 else .ok 200)) =
      { success := true, updated_count := 1,
        writes := [("e1", computePatch vA), ("e2", computePatch vB)] } :=
  write_failure_isolated (fun i _ => if i == "e1" then .ok 500 else .ok 200)
    (by decide) (by decide)

/-- C10: with both probes succeeding, an empty source enumeration or an
empty destination listing makes the pass return failure with no destination
writes issued. -/
theorem sync_metadata_empty_catalog_fails (env : SyncEnv)
    (hta : env.ta_ping = true) (hemby : env.emby_ping = true)
    (h : get_all_videos env.video_api = [] ∨ env.emby_items = []) :
    (sync_metadata env).success = false ∧ (sync_metadata env).writes = [] := by
  unfold sync_metadata test_connections
  rw [hta, hemby]
  rcases h with h | h
  · simp [h]
  · by_cases hv : (get_all_videos env.video_api).isEmpty <;> simp [hv, h]

/-- Witness for `sync_metadata_empty_catalog_fails` on a reachable but empty
source catalog. -/
theorem sync_metadata_empty_catalog_fails_witness :
    (sync_metadata
      { ta_ping := true, emby_ping := true,
        video_api := fun _ _ => .ok { data := [], paginate := none },
        emby_items := [⟨some "e", some "x", none, []⟩],
        transport := fun _ _ => .ok 200 }).success = false ∧
    (sync_metadata
      { ta_ping := true, emby_ping := true,
        video_api := fun _ _ => .ok { data := [], paginate := none },
        emby_items := [⟨some "e", some "x", none, []⟩],
        transport := fun _ _ => .ok 200 }).writes = [] :=
  sync_metadata_empty_catalog_fails _ rfl rfl (Or.inl (by decide))
